import Mathlib

/-!
Verification of the ingestion core of the SatelliateSpectrumSensing backend.

This file shallowly embeds the writer, backfill, upstream-client, account-pool
and archive-import logic of the repository (backend/services and
backend/scripts) as executable Lean definitions, and settles the frozen claims
about them. Machine integers and datetimes are modelled as Int seconds;
Python float arithmetic is idealised as exact rational or real arithmetic.
-/

/- ===================== Python string primitives ===================== -/

/-- Model of the Python slice s[a:b] for 0 ≤ a ≤ b (clamping at the end). -/
def pySlice (s : String) (a b : Nat) : String :=
  ⟨(s.data.drop a).take (b - a)⟩

/-- Model of Python str.strip(): remove leading and trailing whitespace. -/
def pyStrip (s : String) : String :=
  ⟨((s.data.dropWhile Char.isWhitespace).reverse.dropWhile Char.isWhitespace).reverse⟩

/-- Numeric value of a digit list, most significant first. -/
def digitsVal (cs : List Char) : Nat :=
  cs.foldl (fun acc c => acc * 10 + (c.toNat - 48)) 0

/-- Parse an unsigned decimal numeral (digits, optionally one dot), exactly
consuming the input; models the decimal-numeral fragment of Python float(). -/
def pyFloatAux (cs : List Char) : Option ℚ :=
  let intPart := cs.takeWhile Char.isDigit
  let rest := cs.dropWhile Char.isDigit
  match rest with
  | [] => if intPart.isEmpty then none else some (digitsVal intPart : ℚ)
  | c :: frac =>
    if c = '.' ∧ frac.all Char.isDigit ∧ ¬(intPart.isEmpty ∧ frac.isEmpty) then
      some ((digitsVal intPart : ℚ) + (digitsVal frac : ℚ) / 10 ^ frac.length)
    else none

/-- Model of Python float(s) on plain decimal numerals (optional sign,
surrounding whitespace); returns none where float() raises ValueError. -/
def pyFloat (s : String) : Option ℚ :=
  match (pyStrip s).data with
  | '-' :: rest => (pyFloatAux rest).map (fun q => -q)
  | '+' :: rest => pyFloatAux rest
  | cs => pyFloatAux cs

/- ===================== C6: derived orbital parameters =====================
   Source: backend/services/tle_service.py, TLEService.calculate_orbital_params
   (lines 966-994) and the class constants EARTH_RADIUS_KM, EARTH_MU. -/

/-- TLEService.EARTH_MU (km^3/s^2). -/
noncomputable def EARTH_MU : ℝ := 398600.4418

/-- TLEService.EARTH_RADIUS_KM (km). -/
noncomputable def EARTH_RADIUS_KM : ℝ := 6378.137

/-- The dictionary returned by calculate_orbital_params; the fields that the
code derives with ** and math.pi are idealised as reals. -/
structure OrbitalParams where
  inclination : ℚ
  eccentricity : ℚ
  mean_motion : ℚ
  period_minutes : ℚ
  semi_major_axis_km : ℝ
  apogee_km : ℝ
  perigee_km : ℝ

/-- Embedding of TLEService.calculate_orbital_params: parse line2 fields
[8:16], [26:33] (prefixed with 0.), [52:63]; period = 1440/mean_motion;
a = (MU * (period_seconds/(2 pi))^2)^(1/3); apogee/perigee from a and e.
Returns none where the code catches ValueError/IndexError and returns {}. -/
noncomputable def calculate_orbital_params (line2 : String) : Option OrbitalParams := do
  let inclination ← pyFloat (pyStrip (pySlice line2 8 16))
  let eccentricity ← pyFloat ("0." ++ pyStrip (pySlice line2 26 33))
  let mean_motion ← pyFloat (pyStrip (pySlice line2 52 63))
  let period_minutes : ℚ := 1440 / mean_motion
  let period_seconds : ℚ := period_minutes * 60
  let semi_major_axis : ℝ :=
    (EARTH_MU * (((period_seconds : ℝ)) / (2 * Real.pi)) ^ (2 : ℕ)) ^ ((1 : ℝ) / 3)
  let apogee : ℝ := semi_major_axis * (1 + (eccentricity : ℝ)) - EARTH_RADIUS_KM
  let perigee : ℝ := semi_major_axis * (1 - (eccentricity : ℝ)) - EARTH_RADIUS_KM
  pure { inclination := inclination
         eccentricity := eccentricity
         mean_motion := mean_motion
         period_minutes := period_minutes
         semi_major_axis_km := semi_major_axis
         apogee_km := apogee
         perigee_km := perigee }

/-- The gravitational parameter mu of the reference formulas in spec section
4.4 (Derived fields). -/
noncomputable def SPEC_MU : ℝ := 398600.4418

/-- The Earth radius R_E of the reference formulas in spec section 4.4. -/
noncomputable def SPEC_RE : ℝ := 6378.137

/-- Reference derivation written from the words of the spec (section 4.4):
inclination = field[8:16], eccentricity = 0. ++ field[26:33],
mean motion = field[52:63], period (min) = 1440 / mean_motion,
semi-major axis = (mu * (period * 60 / (2 pi))^2)^(1/3),
apogee = a * (1+e) - R_E, perigee = a * (1-e) - R_E. -/
noncomputable def spec_orbital_params (line2 : String) : Option OrbitalParams := do
  let inclination ← pyFloat (pyStrip (pySlice line2 8 16))
  let eccentricity ← pyFloat ("0." ++ pyStrip (pySlice line2 26 33))
  let mean_motion ← pyFloat (pyStrip (pySlice line2 52 63))
  let period : ℚ := 1440 / mean_motion
  let a : ℝ :=
    (SPEC_MU * (((period * 60 : ℚ) : ℝ) / (2 * Real.pi)) ^ (2 : ℕ)) ^ ((1 : ℝ) / 3)
  pure { inclination := inclination
         eccentricity := eccentricity
         mean_motion := mean_motion
         period_minutes := period
         semi_major_axis_km := a
         apogee_km := a * (1 + (eccentricity : ℝ)) - SPEC_RE
         perigee_km := a * (1 - (eccentricity : ℝ)) - SPEC_RE }

/- ===================== C5: account pool =====================
   Source: backend/services/account_pool.py, class AccountPoolManager and
   dataclass AccountState. Datetimes are seconds (Int); the in-place mutation
   that _is_account_available performs on the checked account is modelled by
   returning the updated state alongside the decision. -/

/-- AccountStatus enumeration of account_pool.py. -/
inductive AccountStatus
  | active
  | rate_limited
  | suspended
  | auth_failed
  | cooldown
deriving DecidableEq, Repr

/-- QueryType enumeration of account_pool.py. -/
inductive QueryType
  | gp
  | gp_history
  | satcat
  | decay
  | tip
  | other
deriving DecidableEq, Repr

/-- The mutable per-account state (dataclass AccountState), with datetimes as
Int seconds and the per-constellation maps as association lists. -/
structure AccountState where
  username : String
  status : AccountStatus
  requests_this_minute : Nat
  requests_this_hour : Nat
  minute_window_start : Option ℤ
  hour_window_start : Option ℤ
  cooldown_until : Option ℤ
  last_gp_query : List (String × ℤ)
  last_satcat_query : Option ℤ
  last_gp_history_query : List (String × ℤ)
  consecutive_errors : Nat
deriving DecidableEq, Repr

/-- AccountPoolManager.MAX_REQUESTS_PER_MINUTE. -/
def MAX_REQUESTS_PER_MINUTE : Nat := 25

/-- AccountPoolManager.MAX_REQUESTS_PER_HOUR. -/
def MAX_REQUESTS_PER_HOUR : Nat := 280

/-- AccountPoolManager.GP_QUERY_COOLDOWN (seconds). -/
def GP_QUERY_COOLDOWN : ℤ := 3600

/-- AccountPoolManager.SATCAT_QUERY_COOLDOWN (seconds). -/
def SATCAT_QUERY_COOLDOWN : ℤ := 86400

/-- AccountPoolManager.GP_HISTORY_COOLDOWN (seconds). -/
def GP_HISTORY_COOLDOWN : ℤ := 604800

/-- AccountPoolManager.RATE_LIMIT_COOLDOWN (seconds). -/
def RATE_LIMIT_COOLDOWN : ℤ := 1800

/-- AccountPoolManager.AUTH_FAILURE_COOLDOWN (seconds). -/
def AUTH_FAILURE_COOLDOWN : ℤ := 3600

/-- AccountPoolManager.MAX_CONSECUTIVE_ERRORS. -/
def MAX_CONSECUTIVE_ERRORS : Nat := 5

/-- Truthiness-and-comparison pattern of the code:
if state.cooldown_until and now < state.cooldown_until. -/
def cooldownActive (now : ℤ) (s : AccountState) : Bool :=
  match s.cooldown_until with
  | none => false
  | some cu => decide (now < cu)

/-- AccountPoolManager._is_minute_window_expired. -/
def is_minute_window_expired (now : ℤ) (s : AccountState) : Bool :=
  match s.minute_window_start with
  | none => true
  | some t => decide (60 ≤ now - t)

/-- AccountPoolManager._is_hour_window_expired. -/
def is_hour_window_expired (now : ℤ) (s : AccountState) : Bool :=
  match s.hour_window_start with
  | none => true
  | some t => decide (3600 ≤ now - t)

/-- Counter part of _is_account_available: lazy window resets, then the
per-minute and per-hour caps. -/
def availability_counters (now : ℤ) (s : AccountState) : Bool × AccountState :=
  let s :=
    if is_minute_window_expired now s then
      { s with requests_this_minute := 0, minute_window_start := some now }
    else s
  let s :=
    if is_hour_window_expired now s then
      { s with requests_this_hour := 0, hour_window_start := some now }
    else s
  if MAX_REQUESTS_PER_MINUTE ≤ s.requests_this_minute then (false, s)
  else if MAX_REQUESTS_PER_HOUR ≤ s.requests_this_hour then (false, s)
  else (true, s)

/-- AccountPoolManager._is_account_available. Returns the decision together
with the (possibly cooldown-recovered, counter-reset) state, mirroring the
in-place mutation of the Python code. -/
def is_account_available (now : ℤ) (s : AccountState) : Bool × AccountState :=
  if s.status = AccountStatus.suspended then (false, s)
  else if s.status = AccountStatus.auth_failed then
    if cooldownActive now s then (false, s)
    else availability_counters now
      { s with status := AccountStatus.active, consecutive_errors := 0 }
  else if s.status = AccountStatus.rate_limited ∨ s.status = AccountStatus.cooldown then
    if cooldownActive now s then (false, s)
    else availability_counters now { s with status := AccountStatus.active }
  else availability_counters now s

/-- Lookup in an association list, modelling dict.get. -/
def lookupTime (m : List (String × ℤ)) (k : String) : Option ℤ :=
  (m.find? (fun p => p.1 = k)).map Prod.snd

/-- AccountPoolManager._can_query: query-type specific per-account cooldowns. -/
def can_query (now : ℤ) (s : AccountState) (qt : QueryType)
    (constellation : Option String) : Bool :=
  match qt, constellation with
  | QueryType.gp, some c =>
    match lookupTime s.last_gp_query c with
    | some t => decide (GP_QUERY_COOLDOWN ≤ now - t)
    | none => true
  | QueryType.satcat, _ =>
    match s.last_satcat_query with
    | some t => decide (SATCAT_QUERY_COOLDOWN ≤ now - t)
    | none => true
  | QueryType.gp_history, some c =>
    match lookupTime s.last_gp_history_query c with
    | some t => decide (GP_HISTORY_COOLDOWN ≤ now - t)
    | none => true
  | _, _ => true

/-- Eligibility test the selection loop applies to one account:
_is_account_available, then _can_query on the updated state. -/
def eligibleAccount (now : ℤ) (qt : QueryType) (c : Option String)
    (s : AccountState) : Bool :=
  (is_account_available now s).1 && can_query now (is_account_available now s).2 qt c

/-- AccountPoolManager.get_available_account: scan accounts round-robin from
the rolling index and return the list index of the first eligible account.
Mutation by _is_account_available touches only the inspected account, so each
account's eligibility depends only on its own pre-scan state. -/
def get_available_account (now : ℤ) (states : List AccountState)
    (current_index : Nat) (qt : QueryType) (c : Option String) : Option Nat :=
  (List.range states.length).findSome? (fun i =>
    let idx := (current_index + i) % states.length
    match states.get? idx with
    | some s => if eligibleAccount now qt c s then some idx else none
    | none => none)

/-- AccountPoolManager.mark_rate_limited. -/
def mark_rate_limited (now : ℤ) (s : AccountState) : AccountState :=
  let s := { s with status := AccountStatus.rate_limited,
                    cooldown_until := some (now + RATE_LIMIT_COOLDOWN),
                    consecutive_errors := s.consecutive_errors + 1 }
  if MAX_CONSECUTIVE_ERRORS ≤ s.consecutive_errors then
    { s with status := AccountStatus.suspended }
  else s

/-- AccountPoolManager.mark_auth_failed. -/
def mark_auth_failed (now : ℤ) (s : AccountState) : AccountState :=
  let s := { s with status := AccountStatus.auth_failed,
                    cooldown_until := some (now + AUTH_FAILURE_COOLDOWN),
                    consecutive_errors := s.consecutive_errors + 1 }
  if MAX_CONSECUTIVE_ERRORS ≤ s.consecutive_errors then
    { s with status := AccountStatus.suspended }
  else s

/-- AccountPoolManager.mark_error (the transient-error outcome): increments
the error counter and, at the threshold, moves the account to COOLDOWN for
300 seconds, not to SUSPENDED. -/
def mark_error (now : ℤ) (s : AccountState) : AccountState :=
  let s := { s with consecutive_errors := s.consecutive_errors + 1 }
  if MAX_CONSECUTIVE_ERRORS ≤ s.consecutive_errors then
    { s with status := AccountStatus.cooldown, cooldown_until := some (now + 300) }
  else s

/-- AccountPoolManager.reset_account (the operator reset). -/
def reset_account (s : AccountState) : AccountState :=
  { s with status := AccountStatus.active, consecutive_errors := 0,
           cooldown_until := none }

/- ===================== C4: upstream client retry loop =====================
   Source: backend/services/spacetrack_service.py,
   SpaceTrackService._execute_query (lines 134-249). One scripted response per
   attempt; account selection and authentication are assumed to succeed (the
   claim is about the HTTP-outcome handling), and sleeps are in seconds. -/

/-- The per-attempt outcome the code branches on: status code classes, the
HTML sentinel body, and request exceptions. -/
inductive UpstreamResponse
  | okJson
  | okHtml
  | status429
  | status500RateLimit
  | status500Other
  | status401or403
  | statusOther
  | timeoutError
  | networkError
deriving DecidableEq, Repr

/-- Account-pool outcome calls made by the loop. -/
inductive PoolMark
  | rateLimited
  | authFailed
  | transientError
deriving DecidableEq, Repr

/-- Observable trace of one _execute_query call: attempts consumed, sleeps
performed (seconds, in order), pool marks recorded, and the result, where
none is the failure signal returned after exhaustion. -/
structure QueryTrace where
  attempts : Nat
  sleeps : List Nat
  marks : List PoolMark
  result : Option Unit
deriving DecidableEq, Repr

/-- The for-loop of _execute_query: remaining attempts, current backoff_time,
remaining scripted responses. 429 sleeps backoff_time and doubles it;
rate-limited 500 sleeps min(60, backoff_time * 4) and doubles it; other 500
sleeps 2; 401/403 marks auth-failed; other statuses and request exceptions
mark a transient error; a 200 HTML sentinel consumes the attempt with no mark. -/
def execute_query_loop : Nat → Nat → List UpstreamResponse → QueryTrace
  | 0, _, _ => ⟨0, [], [], none⟩
  | _ + 1, _, [] => ⟨0, [], [], none⟩
  | k + 1, backoff, r :: rest =>
    match r with
    | UpstreamResponse.okJson => ⟨1, [], [], some ()⟩
    | UpstreamResponse.okHtml =>
      let t := execute_query_loop k backoff rest
      { t with attempts := t.attempts + 1 }
    | UpstreamResponse.status429 =>
      let t := execute_query_loop k (backoff * 2) rest
      ⟨t.attempts + 1, backoff :: t.sleeps, PoolMark.rateLimited :: t.marks, t.result⟩
    | UpstreamResponse.status500RateLimit =>
      let t := execute_query_loop k (backoff * 2) rest
      ⟨t.attempts + 1, min 60 (backoff * 4) :: t.sleeps,
        PoolMark.rateLimited :: t.marks, t.result⟩
    | UpstreamResponse.status401or403 =>
      let t := execute_query_loop k backoff rest
      ⟨t.attempts + 1, t.sleeps, PoolMark.authFailed :: t.marks, t.result⟩
    | UpstreamResponse.status500Other =>
      let t := execute_query_loop k backoff rest
      ⟨t.attempts + 1, 2 :: t.sleeps, PoolMark.transientError :: t.marks, t.result⟩
    | UpstreamResponse.statusOther =>
      let t := execute_query_loop k backoff rest
      ⟨t.attempts + 1, t.sleeps, PoolMark.transientError :: t.marks, t.result⟩
    | UpstreamResponse.timeoutError =>
      let t := execute_query_loop k backoff rest
      ⟨t.attempts + 1, t.sleeps, PoolMark.transientError :: t.marks, t.result⟩
    | UpstreamResponse.networkError =>
      let t := execute_query_loop k backoff rest
      ⟨t.attempts + 1, t.sleeps, PoolMark.transientError :: t.marks, t.result⟩

/-- SpaceTrackService._execute_query: max_retries = min(5, account_count),
initial backoff_time = 2. -/
def execute_query (account_count : Nat) (responses : List UpstreamResponse) :
    QueryTrace :=
  execute_query_loop (min 5 account_count) 2 responses

/-- Sleep schedule of the amended claim, written from its words: a 429 retry
sleeps the backoff value; a rate-limited 500 retry sleeps min(60, 4 times the
backoff value); the backoff value starts at 2 and doubles on each rate-limit
retry; a non-rate-limit 500 sleeps 2 seconds; nothing else sleeps. -/
def amended_backoff_sleeps : Nat → Nat → List UpstreamResponse → List Nat
  | 0, _, _ => []
  | _ + 1, _, [] => []
  | k + 1, b, r :: rest =>
    match r with
    | UpstreamResponse.okJson => []
    | UpstreamResponse.status429 => b :: amended_backoff_sleeps k (2 * b) rest
    | UpstreamResponse.status500RateLimit =>
      min 60 (4 * b) :: amended_backoff_sleeps k (2 * b) rest
    | UpstreamResponse.status500Other => 2 :: amended_backoff_sleeps k b rest
    | _ => amended_backoff_sleeps k b rest

/- ===================== C1: TLE history writer paths =====================
   Source: backend/services/tle_service.py. Epochs are Int seconds; the store
   for one satellite is its current tle_epoch plus the list of its TLEHistory
   row epochs in insertion order (the schema in models/tle_history.py has no
   unique constraint on (satellite_id, epoch), so the list records every
   inserted row). -/

/-- Persistent state for one satellite: current tle_epoch and the epochs of
its TLEHistory rows. -/
structure SatRecord where
  tle_epoch : Option ℤ
  history : List ℤ
deriving DecidableEq, Repr

/-- Inner loop step of TLEService._save_bulk_history_to_db (lines 562-596):
insert the record only if no TLEHistory row with this (satellite_id, epoch)
exists. -/
def save_bulk_history_record (st : SatRecord) (epoch : ℤ) : SatRecord :=
  if epoch ∈ st.history then st
  else { st with history := st.history ++ [epoch] }

/-- Per-satellite step of TLEService.update_constellation_tle for an existing
satellite (lines 1106-1141): overwrite the TLE columns and append a TLEHistory
row whenever the stored tle_epoch differs from the incoming epoch; no lookup
of existing history rows is made. -/
def upsert_gp_entry (st : SatRecord) (epoch : ℤ) : SatRecord :=
  let hist := if st.tle_epoch ≠ some epoch then st.history ++ [epoch] else st.history
  { tle_epoch := some epoch, history := hist }

/- ===================== C2 / C10: history backfill planning =====================
   Source: backend/services/tle_service.py, TLEService.sync_constellation_history
   (lines 153-215). -/

/-- One day of seconds. -/
def ONE_DAY : ℤ := 86400

/-- What the planner reads per satellite: the epoch of its earliest TLEHistory
row, if any. -/
structure SatEarliest where
  norad_id : Nat
  earliest_epoch : Option ℤ
deriving DecidableEq, Repr

/-- Fetch condition of the planning loop (lines 185-191): fetch when there is
no history at all, or when the oldest epoch is newer than
target_start + 7 days. -/
def needs_history_fetch (target_start : ℤ) (s : SatEarliest) : Bool :=
  match s.earliest_epoch with
  | none => true
  | some e => decide (target_start + 7 * ONE_DAY < e)

/-- The satellites_to_fetch list built by sync_constellation_history, with
target_start = now - days. -/
def satellites_to_fetch (sats : List SatEarliest) (now : ℤ) (days : ℤ) :
    List SatEarliest :=
  sats.filter (needs_history_fetch (now - days * ONE_DAY))

/-- The single request window of the bulk fetch the planner issues for every
selected satellite: start_date = target_start is passed explicitly and the
end defaults to now (as in the history fetchers of the upstream client). -/
def code_fetch_window (now : ℤ) (days : ℤ) : ℤ × ℤ :=
  (now - days * ONE_DAY, now)

/-- Per-satellite window written from the words of the spec (section 4.5):
no history gives [target_start, now]; earliest older than target_start +
7 days means complete (none); otherwise [target_start, earliest - 1 day]. -/
def spec_fetch_window (now : ℤ) (days : ℤ) (s : SatEarliest) :
    Option (ℤ × ℤ) :=
  let target_start := now - days * ONE_DAY
  match s.earliest_epoch with
  | none => some (target_start, now)
  | some e =>
    if e < target_start + 7 * ONE_DAY then none
    else some (target_start, e - ONE_DAY)

/- ===================== C3: cached satellite count =====================
   Source: backend/services/tle_service.py, sync_catalog_from_spacetrack
   (lines 268-357) and update_constellation_tle (lines 1100-1169). Satellites
   are identified by norad_id; only the columns the claim needs are kept. -/

/-- The constellation row fields involved in the claim. -/
structure ConstellationRow where
  id : Nat
  satellite_count : Nat
deriving DecidableEq, Repr

/-- A satellite row: its catalog number and constellation link. -/
structure SatRow where
  norad_id : Nat
  constellation_id : Nat
deriving DecidableEq, Repr

/-- Store state for one constellation: its row and the whole satellites table. -/
structure CatalogDB where
  constellation : ConstellationRow
  satellites : List SatRow
deriving DecidableEq, Repr

/-- Live count of satellites linked to the constellation
(Satellite.query.filter_by(constellation_id=...).count()). -/
def liveCount (db : CatalogDB) : Nat :=
  (db.satellites.filter (fun s => s.constellation_id = db.constellation.id)).length

/-- Upsert of one catalog record keyed by norad_id: create the satellite with
this constellation link if missing, else re-link it to this constellation
(the satellite-facing effect shared by both writer paths). -/
def catalogUpsert (cid : Nat) (sats : List SatRow) (norad : Nat) : List SatRow :=
  if sats.any (fun s => s.norad_id = norad) then
    sats.map (fun s => if s.norad_id = norad then { s with constellation_id := cid } else s)
  else sats ++ [{ norad_id := norad, constellation_id := cid }]

/-- Commit effect of TLEService.sync_catalog_from_spacetrack on the rows of
the claim: satellites are created/re-linked, and the commit happens without
any refresh of constellation.satellite_count. -/
def sync_catalog_from_spacetrack_commit (db : CatalogDB) (records : List Nat) :
    CatalogDB :=
  { db with satellites := records.foldl (catalogUpsert db.constellation.id) db.satellites }

/-- Commit effect of TLEService.update_constellation_tle on the rows of the
claim: upsert each parsed entry, then set constellation.satellite_count to
the live count before committing (lines 1163-1169). -/
def update_constellation_tle_commit (db : CatalogDB) (entries : List Nat) :
    CatalogDB :=
  let db := { db with satellites := entries.foldl (catalogUpsert db.constellation.id) db.satellites }
  { db with constellation := { db.constellation with satellite_count := liveCount db } }

/- ===================== C7: opportunistic Launch creation =====================
   Source: backend/services/tle_service.py, the launch-handling block shared
   by sync_catalog_from_spacetrack (lines 327-353) and update_satcat_data
   (lines 498-529). -/

/-- launch_cospar = intldes[:8] if len(intldes) >= 8 else intldes. -/
def launch_cospar_of (intldes : String) : String :=
  if 8 ≤ intldes.length then pySlice intldes 0 8 else intldes

/-- Launch-creation step for one record: with a truthy (non-empty)
launch_cospar that is not in the preloaded map, a Launch row is created with
cospar_id = launch_cospar; returns the cospar_id of the created row, if any. -/
def process_satcat_launch (launch_map : List String) (intldes : String) :
    Option String :=
  let lc := launch_cospar_of intldes
  if lc = "" then none
  else if lc ∈ launch_map then none
  else some lc

/- ===================== C8: GP-history annual chunking =====================
   Source: backend/services/spacetrack_service.py, get_gp_history (lines
   592-628) and _get_gp_history_chunked_by_year (lines 716-751). Dates are
   midnight-UTC calendar dates, modelled as a year plus a zero-based day of
   year; (end - start).days is then the difference of ordinal day numbers.
   The mutual recursion of the two Python functions is made total with a fuel
   argument: a result of none for every fuel is non-termination. -/

/-- A midnight-UTC datetime as year and zero-based day of year. -/
structure PyDate where
  year : Nat
  doy : Nat
deriving DecidableEq, Repr

/-- Gregorian leap-year test. -/
def isLeapYear (y : Nat) : Bool :=
  y % 4 = 0 && (y % 100 ≠ 0 || y % 400 = 0)

/-- Number of leap years strictly below y (year 0 counts as leap). -/
def leapYearsBefore (y : Nat) : Nat :=
  if y = 0 then 0 else (y - 1) / 4 - (y - 1) / 100 + (y - 1) / 400 + 1

/-- Ordinal day number of a date (days since 0000-01-01). -/
def toOrdinalDay (d : PyDate) : Nat :=
  365 * d.year + leapYearsBefore d.year + d.doy

/-- (e - s).days for midnight-aligned datetimes. -/
def daysBetween (s e : PyDate) : ℤ :=
  (toOrdinalDay e : ℤ) - (toOrdinalDay s : ℤ)

/-- Python min of two datetimes (first argument on ties). -/
def minDate (a b : PyDate) : PyDate :=
  if toOrdinalDay a ≤ toOrdinalDay b then a else b

/-- datetime(year, 1, 1). -/
def yearStart (y : Nat) : PyDate :=
  { year := y, doy := 0 }

mutual

/-- get_gp_history restricted to its time-window structure: a span of more
than 365 days is delegated to the yearly chunker, otherwise the range is one
request window. Fuel 0 stands for a computation that has not terminated. -/
def get_gp_history_windows : Nat → PyDate → PyDate → Option (List (PyDate × PyDate))
  | 0, _, _ => none
  | fuel + 1, s, e =>
    if 365 < daysBetween s e then chunked_by_year_loop fuel s e
    else some [(s, e)]

/-- The while-loop of _get_gp_history_chunked_by_year: while current_start <
end_date, take current_end = min(datetime(current_start.year + 1, 1, 1),
end_date), recurse into get_gp_history for [current_start, current_end], and
continue from current_end. -/
def chunked_by_year_loop : Nat → PyDate → PyDate → Option (List (PyDate × PyDate))
  | 0, _, _ => none
  | fuel + 1, s, e =>
    if toOrdinalDay s < toOrdinalDay e then
      let ce := minDate (yearStart (s.year + 1)) e
      match get_gp_history_windows fuel s ce with
      | none => none
      | some ws =>
        match chunked_by_year_loop fuel ce e with
        | none => none
        | some rest => some (ws ++ rest)
    else some []

end

/- ===================== C9: archive importer batch commit =====================
   Source: backend/scripts/import_history_from_zip.py, HistoryImporter
   (_commit_batch, lines 419-475, and _get_existing_epochs, lines 182-192),
   against the declarative model backend/models/tle_history.py. SQLAlchemy
   declarative models reject unknown constructor keywords with TypeError. -/

/-- Python exception kinds the embeddings surface. -/
inductive PyError
  | attributeError
  | typeError
deriving DecidableEq, Repr

/-- Column attributes declared on the TLEHistory model
(models/tle_history.py, lines 14-39). -/
def tle_history_model_columns : List String :=
  ["id", "satellite_id", "tle_line1", "tle_line2", "epoch",
   "semi_major_axis_km", "mean_motion", "eccentricity", "inclination",
   "apogee_km", "perigee_km", "period_minutes", "bstar", "mean_anomaly",
   "raan", "arg_of_perigee", "source", "recorded_at"]

/-- Keyword arguments _commit_batch passes to the TLEHistory constructor
(import_history_from_zip.py, lines 450-463). -/
def importer_history_kwargs : List String :=
  ["satellite_id", "tle_line1", "tle_line2", "epoch", "source",
   "semi_major_axis_km", "mean_motion", "eccentricity", "inclination_deg",
   "period_minutes", "apoapsis_km", "periapsis_km"]

/-- SQLAlchemy declarative constructor: every keyword must name a declared
attribute, otherwise TypeError is raised. -/
def sqlalchemy_construct (columns kwargs : List String) : Except PyError Unit :=
  if kwargs.all (fun k => columns.contains k) then Except.ok ()
  else Except.error PyError.typeError

/-- Counters reported by the importer. -/
structure ImportCounts where
  records_imported : Nat
  records_skipped : Nat
deriving DecidableEq, Repr

/-- The record loop of _commit_batch over (satellite_id, epoch) pairs:
skip records whose pair is already present (epochs compared at second
granularity, which Int seconds already are), otherwise construct a TLEHistory
object; a constructor TypeError propagates out of the batch. -/
def commit_batch_loop (existing : List (Nat × ℤ)) (skip_existing : Bool) :
    List (Nat × ℤ) → Nat → Nat → Except PyError ImportCounts
  | [], imported, skipped => Except.ok { records_imported := imported, records_skipped := skipped }
  | r :: rs, imported, skipped =>
    if skip_existing ∧ r ∈ existing then
      commit_batch_loop existing skip_existing rs imported (skipped + 1)
    else
      match sqlalchemy_construct tle_history_model_columns importer_history_kwargs with
      | Except.error e => Except.error e
      | Except.ok _ => commit_batch_loop existing skip_existing rs (imported + 1) skipped

/-- HistoryImporter._commit_batch: a dry run only counts; otherwise the
record loop runs and the bulk save commits the constructed rows. -/
def commit_batch (existing : List (Nat × ℤ)) (skip_existing : Bool)
    (dry_run : Bool) (records : List (Nat × ℤ)) : Except PyError ImportCounts :=
  if dry_run then Except.ok { records_imported := records.length, records_skipped := 0 }
  else commit_batch_loop existing skip_existing records 0 0

/- ===================== C10: calls on missing client methods =====================
   Source: backend/services/tle_service.py, sync_constellation_history (lines
   153-215) and update_satcat_data (lines 448-467), against the method surface
   of class SpaceTrackService in backend/services/spacetrack_service.py.
   Python resolves self.spacetrack_service.NAME at call time and raises
   AttributeError when the class defines no such attribute. -/

/-- The methods defined on class SpaceTrackService (spacetrack_service.py,
lines 51-949), in source order. -/
def spacetrack_service_methods : List String :=
  ["__init__", "_get_session", "_is_session_valid", "_authenticate",
   "_ensure_authenticated", "_execute_query", "get_api_status",
   "test_query_format", "_test_single_query", "_format_query_filter",
   "get_gp_data", "get_gp_data_tle_format", "query_satcat",
   "get_satcat_by_norad_ids", "get_gp_history",
   "_get_gp_history_chunked_by_year", "get_latest_tle_by_norad",
   "get_gp_by_name_pattern", "get_gp_by_multiple_patterns", "get_decay_data",
   "get_tip_messages", "get_announcements", "get_recent_launches",
   "get_full_status", "logout_all"]

/-- Python attribute lookup for a bound method call. -/
def getattr_call (methods : List String) (name : String) : Except PyError Unit :=
  if name ∈ methods then Except.ok ()
  else Except.error PyError.attributeError

/-- TLEService.sync_constellation_history up to its upstream call: the early
returns (rate limit, missing constellation, no satellites, nothing to fetch)
yield 0; past them the code invokes self.spacetrack_service.get_bulk_history.
The ok branch after the lookup is unreachable because the class defines no
such method, so no record count is ever produced there. -/
def sync_constellation_history (rate_ok : Bool) (constellation_found : Bool)
    (sats : List SatEarliest) (now : ℤ) (days : ℤ) : Except PyError Nat :=
  if ¬rate_ok then Except.ok 0
  else if ¬constellation_found then Except.ok 0
  else if sats.isEmpty then Except.ok 0
  else if (satellites_to_fetch sats now days).isEmpty then Except.ok 0
  else
    match getattr_call spacetrack_service_methods "get_bulk_history" with
    | Except.error e => Except.error e
    | Except.ok _ => Except.ok 0

/-- TLEService.update_satcat_data up to its upstream call: the early returns
yield (0, 0); past them the code invokes
self.spacetrack_service.get_satcat_data outside any try block. -/
def update_satcat_data (constellation_found : Bool) (sat_norad_ids : List Nat) :
    Except PyError (Nat × Nat) :=
  if ¬constellation_found then Except.ok (0, 0)
  else if sat_norad_ids.isEmpty then Except.ok (0, 0)
  else
    match getattr_call spacetrack_service_methods "get_satcat_data" with
    | Except.error e => Except.error e
    | Except.ok _ => Except.ok (0, 0)

/- ===================== Theorems ===================== -/

/-- Claim C1, counterexample: in a store where the satellite has tle_epoch 1
and a TLEHistory row with epoch 2 already exists, the GP refresh upsert of a
record with epoch 2 inserts a second row for the same (satellite_id, epoch),
so re-ingesting an existing epoch is not a no-op on this writer path. -/
theorem gp_refresh_duplicate_epoch_counterexample :
    ({ tle_epoch := some 1, history := [2] } : SatRecord).history.count 2 = 1 ∧
    (upsert_gp_entry { tle_epoch := some 1, history := [2] } 2).history.count 2 = 2 := by
  decide

/-- Claim C1, amended: the bulk history save skips a record whose
(satellite_id, epoch) already exists, inserting no new row; the GP refresh
upsert instead appends a history row whenever the incoming epoch differs from
the satellite current tle_epoch, without consulting existing history rows
(and the schema has no unique constraint), so that path can duplicate an
epoch that is already stored. -/
theorem history_dedup_amended (st : SatRecord) (e : ℤ)
    (hdup : e ∈ st.history) (hchanged : st.tle_epoch ≠ some e) :
    save_bulk_history_record st e = st ∧
    (upsert_gp_entry st e).history = st.history ++ [e] := by
  constructor
  · simp [save_bulk_history_record, hdup]
  · simp [upsert_gp_entry, hchanged]

/-- Claim C1, witness for the amended theorem at the concrete store of the
counterexample. -/
theorem history_dedup_amended_witness :
    save_bulk_history_record { tle_epoch := some 1, history := [2] } 2
      = { tle_epoch := some 1, history := [2] } ∧
    (upsert_gp_entry { tle_epoch := some 1, history := [2] } 2).history = [2] ++ [2] :=
  history_dedup_amended { tle_epoch := some 1, history := [2] } 2 (by decide) (by decide)

/-- Claim C2, counterexample: with now = 365 days, days = 365 (target_start =
0) and one satellite whose earliest history epoch is day 10, the planner does
select the satellite, but the request window of the code ends at now, while
the spec formula ends the window at earliest_existing minus 1 day; the two
windows differ. -/
theorem backfill_window_counterexample :
    satellites_to_fetch [{ norad_id := 3, earliest_epoch := some (10 * ONE_DAY) }]
        (365 * ONE_DAY) 365
      = [{ norad_id := 3, earliest_epoch := some (10 * ONE_DAY) }] ∧
    spec_fetch_window (365 * ONE_DAY) 365 { norad_id := 3, earliest_epoch := some (10 * ONE_DAY) }
      = some (0, 9 * ONE_DAY) ∧
    code_fetch_window (365 * ONE_DAY) 365 = (0, 365 * ONE_DAY) ∧
    (9 * ONE_DAY : ℤ) ≠ 365 * ONE_DAY := by
  refine ⟨by decide, by decide, by decide, by decide⟩

/-- Claim C2, amended: the planner selects exactly the satellites with no
TLEHistory at all or whose earliest epoch is newer than target_start + 7
days (the rest are treated as complete and are not re-requested), and every
selected satellite is requested over the same single window
[target_start, now]; no per-satellite end of earliest_existing - 1 day is
computed. -/
theorem sync_history_plan_amended (sats : List SatEarliest) (now days : ℤ)
    (s : SatEarliest) :
    (s ∈ satellites_to_fetch sats now days ↔
      s ∈ sats ∧ (s.earliest_epoch = none ∨
        ∃ e, s.earliest_epoch = some e ∧ (now - days * ONE_DAY) + 7 * ONE_DAY < e)) ∧
    code_fetch_window now days = (now - days * ONE_DAY, now) := by
  constructor
  · rw [satellites_to_fetch, List.mem_filter]
    cases h : s.earliest_epoch <;> simp [needs_history_fetch, h]
  · rfl

/-- Claim C3, counterexample: starting from a consistent store (cached count
0, no satellites), a catalog-sync commit that creates one satellite leaves
cached_satellite_count at 0 while the live count is 1. -/
theorem cached_count_catalog_sync_counterexample :
    (sync_catalog_from_spacetrack_commit
        { constellation := { id := 1, satellite_count := 0 }, satellites := [] }
        [44713]).constellation.satellite_count = 0 ∧
    liveCount (sync_catalog_from_spacetrack_commit
        { constellation := { id := 1, satellite_count := 0 }, satellites := [] }
        [44713]) = 1 ∧
    (0 : Nat) ≠ 1 := by
  decide

/-- Claim C3, amended: the GP/TLE upsert commit recomputes
cached_satellite_count, so after it the cache equals the live count; the
SATCAT catalog-sync commit does not touch the cache, so it can leave the
cache stale when it creates or re-links satellites. -/
theorem cached_count_amended (db : CatalogDB) (entries records : List Nat) :
    (update_constellation_tle_commit db entries).constellation.satellite_count
      = liveCount (update_constellation_tle_commit db entries) ∧
    (sync_catalog_from_spacetrack_commit db records).constellation.satellite_count
      = db.constellation.satellite_count := by
  exact ⟨rfl, rfl⟩

/-- Claim C4, counterexample: when the first response is a rate-limited 500,
the loop sleeps min(60, 4 * backoff) = 8 seconds on that first rate-limit
retry, not the 2 seconds of the claimed backoff sequence that starts at 2 and
doubles. -/
theorem backoff_first_sleep_counterexample :
    (execute_query 5 [UpstreamResponse.status500RateLimit, UpstreamResponse.okJson]).sleeps
      = [8] ∧
    (execute_query 5 [UpstreamResponse.status500RateLimit, UpstreamResponse.okJson]).result
      = some () ∧
    (8 : Nat) ≠ 2 := by
  refine ⟨rfl, rfl, by decide⟩

/-- Attempt count of the retry loop is bounded by its fuel. -/
theorem execute_query_loop_attempts_le : ∀ (k b : Nat) (rs : List UpstreamResponse),
    (execute_query_loop k b rs).attempts ≤ k := by
  intro k
  induction k with
  | zero => intro b rs; cases rs <;> simp [execute_query_loop]
  | succ n ih =>
    intro b rs
    cases rs with
    | nil => simp [execute_query_loop]
    | cons r rest =>
      cases r <;>
        simp only [execute_query_loop] <;>
        first
          | exact Nat.succ_le_succ (Nat.zero_le _)
          | exact Nat.succ_le_succ (ih _ _)

/-- The sleeps of the retry loop follow the amended backoff schedule. -/
theorem execute_query_loop_sleeps : ∀ (k b : Nat) (rs : List UpstreamResponse),
    (execute_query_loop k b rs).sleeps = amended_backoff_sleeps k b rs := by
  intro k
  induction k with
  | zero => intro b rs; cases rs <;> rfl
  | succ n ih =>
    intro b rs
    cases rs with
    | nil => rfl
    | cons r rest =>
      cases r with
      | okJson => rfl
      | okHtml => simpa [execute_query_loop, amended_backoff_sleeps] using ih b rest
      | status429 =>
        simp only [execute_query_loop, amended_backoff_sleeps]
        rw [ih, Nat.mul_comm]
      | status500RateLimit =>
        simp only [execute_query_loop, amended_backoff_sleeps]
        rw [ih, Nat.mul_comm b 2, Nat.mul_comm b 4]
      | status401or403 => simpa [execute_query_loop, amended_backoff_sleeps] using ih b rest
      | status500Other =>
        simp only [execute_query_loop, amended_backoff_sleeps]
        rw [ih]
      | statusOther => simpa [execute_query_loop, amended_backoff_sleeps] using ih b rest
      | timeoutError => simpa [execute_query_loop, amended_backoff_sleeps] using ih b rest
      | networkError => simpa [execute_query_loop, amended_backoff_sleeps] using ih b rest

/-- When no attempt within the fuel gets a JSON 200, the retry loop falls
through and yields the failure signal none rather than raising. -/
theorem execute_query_loop_result : ∀ (k b : Nat) (rs : List UpstreamResponse),
    (∀ r ∈ rs.take k, r ≠ UpstreamResponse.okJson) →
    (execute_query_loop k b rs).result = none := by
  intro k
  induction k with
  | zero => intro b rs _; cases rs <;> rfl
  | succ n ih =>
    intro b rs h
    cases rs with
    | nil => rfl
    | cons r rest =>
      have hr : r ≠ UpstreamResponse.okJson := h r (by simp)
      have hrest : ∀ x ∈ rest.take n, x ≠ UpstreamResponse.okJson := by
        intro x hx
        exact h x (by simp [hx])
      cases r <;>
        first
          | exact absurd rfl hr
          | (simp only [execute_query_loop]; exact ih _ _ hrest)

/-- Claim C4, amended: the loop performs at most min(5, account_count)
attempts; on a 429 it sleeps the backoff value and on a rate-limited 500 it
sleeps min(60, 4 times the backoff value), where the backoff value starts at
2 seconds and doubles on each rate-limit retry (a non-rate-limit 500 sleeps a
flat 2 seconds); and when every attempt within the bound fails, the call
returns the failure signal none to the caller instead of raising. -/
theorem execute_query_retry_amended (n : Nat) (responses : List UpstreamResponse) :
    (execute_query n responses).attempts ≤ min 5 n ∧
    (execute_query n responses).sleeps = amended_backoff_sleeps (min 5 n) 2 responses ∧
    ((∀ r ∈ responses.take (min 5 n), r ≠ UpstreamResponse.okJson) →
      (execute_query n responses).result = none) :=
  ⟨execute_query_loop_attempts_le _ _ _, execute_query_loop_sleeps _ _ _,
   fun h => execute_query_loop_result _ _ _ h⟩

/-- Claim C4, witness: two accounts, two 429 responses; both attempts are
consumed, the sleeps are 2 then 4, and the call returns none. -/
theorem execute_query_retry_amended_witness :
    (execute_query 2 [UpstreamResponse.status429, UpstreamResponse.status429]).attempts ≤ min 5 2 ∧
    (execute_query 2 [UpstreamResponse.status429, UpstreamResponse.status429]).sleeps
      = amended_backoff_sleeps (min 5 2) 2 [UpstreamResponse.status429, UpstreamResponse.status429] ∧
    (execute_query 2 [UpstreamResponse.status429, UpstreamResponse.status429]).result = none := by
  have h := execute_query_retry_amended 2 [UpstreamResponse.status429, UpstreamResponse.status429]
  exact ⟨h.1, h.2.1, h.2.2 (by decide)⟩

/-- Claim C5, counterexample: an account with 4 consecutive errors reaches
the threshold of 5 through mark_error (the transient-error outcome), yet its
status becomes COOLDOWN, not SUSPENDED. -/
theorem mark_error_threshold_counterexample :
    (mark_error 0
      { username := "a", status := AccountStatus.active, requests_this_minute := 0,
        requests_this_hour := 0, minute_window_start := none, hour_window_start := none,
        cooldown_until := none, last_gp_query := [], last_satcat_query := none,
        last_gp_history_query := [], consecutive_errors := 4 }).consecutive_errors
      = MAX_CONSECUTIVE_ERRORS ∧
    (mark_error 0
      { username := "a", status := AccountStatus.active, requests_this_minute := 0,
        requests_this_hour := 0, minute_window_start := none, hour_window_start := none,
        cooldown_until := none, last_gp_query := [], last_satcat_query := none,
        last_gp_history_query := [], consecutive_errors := 4 }).status
      = AccountStatus.cooldown ∧
    AccountStatus.cooldown ≠ AccountStatus.suspended := by
  refine ⟨rfl, rfl, by decide⟩

/-- A suspended account is rejected by the availability check with no state
change. -/
theorem is_account_available_suspended (now : ℤ) (s : AccountState)
    (h : s.status = AccountStatus.suspended) :
    is_account_available now s = (false, s) := by
  rw [is_account_available, if_pos h]

/-- Account selection never hands out a suspended account: any account the
round-robin scan returns passed the availability check, which a suspended
account cannot. -/
theorem get_available_account_not_suspended (t : ℤ) (states : List AccountState)
    (ci : Nat) (qt : QueryType) (c : Option String) (i : Nat) (st : AccountState)
    (hsel : get_available_account t states ci qt c = some i)
    (hst : states.get? i = some st) :
    st.status ≠ AccountStatus.suspended := by
  rw [get_available_account] at hsel
  obtain ⟨j, _, hfj⟩ := List.exists_of_findSome?_eq_some hsel
  dsimp only at hfj
  cases hg : states.get? ((ci + j) % states.length) with
  | none => rw [hg] at hfj; exact Option.noConfusion hfj
  | some s0 =>
    rw [hg] at hfj
    dsimp only at hfj
    by_cases he : eligibleAccount t qt c s0
    · rw [if_pos he] at hfj
      have hidx : (ci + j) % states.length = i := Option.some.inj hfj
      rw [hidx] at hg
      have hs0 : s0 = st := by
        rw [hg] at hst
        exact Option.some.inj hst
      subst hs0
      intro hsusp
      rw [eligibleAccount, is_account_available_suspended t s0 hsusp] at he
      simp at he
    · rw [if_neg he] at hfj
      exact Option.noConfusion hfj

/-- Claim C5, amended: when the error counter reaches the threshold of 5,
mark_rate_limited and mark_auth_failed suspend the account, but mark_error
(the transient-error outcome) instead places it in a 300-second COOLDOWN;
a suspended account fails the availability check and is never returned by
account selection (only reset_account changes a suspended status). -/
theorem account_suspension_amended (now t : ℤ) (s st : AccountState)
    (states : List AccountState) (ci i : Nat) (qt : QueryType) (c : Option String)
    (h5 : MAX_CONSECUTIVE_ERRORS ≤ s.consecutive_errors + 1)
    (hsel : get_available_account t states ci qt c = some i)
    (hst : states.get? i = some st) :
    (mark_rate_limited now s).status = AccountStatus.suspended ∧
    (mark_auth_failed now s).status = AccountStatus.suspended ∧
    (mark_error now s).status = AccountStatus.cooldown ∧
    (is_account_available t { s with status := AccountStatus.suspended }).1 = false ∧
    st.status ≠ AccountStatus.suspended := by
  refine ⟨?_, ?_, ?_, ?_,
    get_available_account_not_suspended t states ci qt c i st hsel hst⟩
  · simp [mark_rate_limited, h5]
  · simp [mark_auth_failed, h5]
  · simp [mark_error, h5]
  · rw [is_account_available_suspended t _ rfl]

/-- Claim C5, witness for the amended theorem: an account at 4 errors and a
one-account pool whose single active account is selected. -/
theorem account_suspension_amended_witness :
    (mark_rate_limited 0
      { username := "a", status := AccountStatus.active, requests_this_minute := 0,
        requests_this_hour := 0, minute_window_start := none, hour_window_start := none,
        cooldown_until := none, last_gp_query := [], last_satcat_query := none,
        last_gp_history_query := [], consecutive_errors := 4 }).status
      = AccountStatus.suspended ∧
    (mark_auth_failed 0
      { username := "a", status := AccountStatus.active, requests_this_minute := 0,
        requests_this_hour := 0, minute_window_start := none, hour_window_start := none,
        cooldown_until := none, last_gp_query := [], last_satcat_query := none,
        last_gp_history_query := [], consecutive_errors := 4 }).status
      = AccountStatus.suspended ∧
    (mark_error 0
      { username := "a", status := AccountStatus.active, requests_this_minute := 0,
        requests_this_hour := 0, minute_window_start := none, hour_window_start := none,
        cooldown_until := none, last_gp_query := [], last_satcat_query := none,
        last_gp_history_query := [], consecutive_errors := 4 }).status
      = AccountStatus.cooldown ∧
    (is_account_available 0
      { username := "a", status := AccountStatus.suspended, requests_this_minute := 0,
        requests_this_hour := 0, minute_window_start := none, hour_window_start := none,
        cooldown_until := none, last_gp_query := [], last_satcat_query := none,
        last_gp_history_query := [], consecutive_errors := 4 }).1 = false ∧
    ({ username := "b", status := AccountStatus.active, requests_this_minute := 0,
       requests_this_hour := 0, minute_window_start := none, hour_window_start := none,
       cooldown_until := none, last_gp_query := [], last_satcat_query := none,
       last_gp_history_query := [], consecutive_errors := 0 } : AccountState).status
      ≠ AccountStatus.suspended :=
  account_suspension_amended 0 0
    { username := "a", status := AccountStatus.active, requests_this_minute := 0,
      requests_this_hour := 0, minute_window_start := none, hour_window_start := none,
      cooldown_until := none, last_gp_query := [], last_satcat_query := none,
      last_gp_history_query := [], consecutive_errors := 4 }
    { username := "b", status := AccountStatus.active, requests_this_minute := 0,
      requests_this_hour := 0, minute_window_start := none, hour_window_start := none,
      cooldown_until := none, last_gp_query := [], last_satcat_query := none,
      last_gp_history_query := [], consecutive_errors := 0 }
    [{ username := "b", status := AccountStatus.active, requests_this_minute := 0,
       requests_this_hour := 0, minute_window_start := none, hour_window_start := none,
       cooldown_until := none, last_gp_query := [], last_satcat_query := none,
       last_gp_history_query := [], consecutive_errors := 0 }]
    0 0 QueryType.other none (by decide) (by decide) (by decide)

/-- Claim C6: the derived orbital parameters of the code equal the reference
formulas of the spec on every TLE line 2, field extraction included, and the
derivation is deterministic (idealising Python float arithmetic as exact
arithmetic, under which both sides are the same composition of parse and
formula). -/
theorem orbital_params_match_spec (line2 : String) :
    calculate_orbital_params line2 = spec_orbital_params line2 ∧
    calculate_orbital_params line2 = calculate_orbital_params line2 := by
  exact ⟨rfl, rfl⟩

/-- Claim C7, counterexample: a satellite record with the 7-character
international designator 2024-01 creates a Launch row (with cospar_id equal
to the whole designator), though the claim says a designator shorter than 8
characters contributes no Launch row. -/
theorem short_intldes_launch_counterexample :
    process_satcat_launch [] "2024-01" = some "2024-01" ∧
    "2024-01".length < 8 := by
  decide

/-- Claim C7, amended: only an empty international designator contributes no
Launch row; every Launch row that is created has cospar_id equal to the first
min(8, length) characters of the designator, which for designators of 8 or
more characters is the first 8 characters and otherwise is the whole
designator. -/
theorem launch_cospar_amended (launch_map : List String) (intldes lc : String)
    (h : process_satcat_launch launch_map intldes = some lc) :
    intldes ≠ "" ∧ lc = launch_cospar_of intldes ∧ lc = pySlice intldes 0 8 := by
  rw [process_satcat_launch] at h
  by_cases h0 : launch_cospar_of intldes = ""
  · simp [h0] at h
  · by_cases h1 : launch_cospar_of intldes ∈ launch_map
    · simp [h0, h1] at h
    · simp [h0, h1] at h
      subst h
      refine ⟨?_, rfl, ?_⟩
      · intro he
        apply h0
        rw [he, launch_cospar_of]
        decide
      · rw [launch_cospar_of]
        by_cases hl : 8 ≤ intldes.length
        · simp [hl]
        · simp [hl]
          rw [pySlice]
          cases intldes with
          | mk data =>
            simp only [List.drop_zero]
            congr 1
            exact (List.take_of_length_le (by
              simpa [String.length] using Nat.le_of_lt (Nat.lt_of_not_le hl))).symm

/-- Claim C7, witness: a full 9-character designator creates a Launch whose
cospar_id is its first 8 characters. -/
theorem launch_cospar_amended_witness :
    "2024-012A" ≠ "" ∧ "2024-012" = launch_cospar_of "2024-012A" ∧
    "2024-012" = pySlice "2024-012A" 0 8 :=
  launch_cospar_amended [] "2024-012A" "2024-012" (by decide)

/-- The annual chunker never terminates on the range [2024-01-01, 2025-01-01]:
its span of 366 days sends it to the yearly loop, whose first calendar-year
chunk is the whole range again, at every fuel. -/
theorem chunk_leap_diverges_aux : ∀ fuel : Nat,
    get_gp_history_windows fuel { year := 2024, doy := 0 } { year := 2025, doy := 0 } = none ∧
    chunked_by_year_loop fuel { year := 2024, doy := 0 } { year := 2025, doy := 0 } = none := by
  intro fuel
  induction fuel with
  | zero => exact ⟨rfl, rfl⟩
  | succ f ih =>
    obtain ⟨ih1, ih2⟩ := ih
    constructor
    · rw [get_gp_history_windows, if_pos (by decide)]
      exact ih2
    · rw [chunked_by_year_loop, if_pos (by decide)]
      show (match get_gp_history_windows f { year := 2024, doy := 0 } { year := 2025, doy := 0 } with
            | none => none
            | some ws =>
              match chunked_by_year_loop f { year := 2025, doy := 0 } { year := 2025, doy := 0 } with
              | none => none
              | some rest => some (ws ++ rest)) = none
      rw [ih1]

/-- Claim C8: a 365-day range is a single chunk and a generic 366-day range
splits into exactly two consecutive chunks, as the claim says; but the
splitting procedure does not terminate on every input: on the exactly
366-day range [2024-01-01, 2025-01-01] (a full leap year) the yearly chunker
re-issues the identical range forever, so its fuelled embedding yields none
at every fuel. -/
theorem gp_history_chunking_code_bug :
    (∀ fuel : Nat,
      get_gp_history_windows fuel { year := 2024, doy := 0 } { year := 2025, doy := 0 } = none) ∧
    daysBetween { year := 2024, doy := 0 } { year := 2025, doy := 0 } = 366 ∧
    get_gp_history_windows 1 { year := 2023, doy := 0 } { year := 2024, doy := 0 }
      = some [({ year := 2023, doy := 0 }, { year := 2024, doy := 0 })] ∧
    daysBetween { year := 2023, doy := 0 } { year := 2024, doy := 0 } = 365 ∧
    get_gp_history_windows 6 { year := 2024, doy := 182 } { year := 2025, doy := 182 }
      = some [({ year := 2024, doy := 182 }, { year := 2025, doy := 0 }),
              ({ year := 2025, doy := 0 }, { year := 2025, doy := 182 })] ∧
    daysBetween { year := 2024, doy := 182 } { year := 2025, doy := 182 } = 366 := by
  refine ⟨fun fuel => (chunk_leap_diverges_aux fuel).1, by decide, ?_, by decide, ?_, by decide⟩
  · rfl
  · rfl

/-- Claim C9: a first non-dry-run import of a batch with one new record does
not report records_imported = 1; it raises TypeError, because the importer
passes the keyword inclination_deg (and apoapsis_km, periapsis_km) which the
TLEHistory model does not declare. The duplicate filter itself would skip an
existing (satellite_id, epoch) without constructing anything. -/
theorem import_commit_batch_type_error :
    commit_batch [] true false [(7, 100)] = Except.error PyError.typeError ∧
    commit_batch [(7, 100)] true false [(7, 100)]
      = Except.ok { records_imported := 0, records_skipped := 1 } ∧
    "inclination_deg" ∈ importer_history_kwargs ∧
    "inclination_deg" ∉ tle_history_model_columns := by
  refine ⟨rfl, rfl, by decide, by decide⟩

/-- Claim C10: whenever sync_constellation_history passes its rate-limit and
existence checks and the plan selects at least one satellite, the call raises
AttributeError, because class SpaceTrackService defines no get_bulk_history
method; hence this path never returns any record count. update_satcat_data
likewise raises AttributeError on its call to the undefined
get_satcat_data. -/
theorem sync_history_missing_method (sats : List SatEarliest) (now days : ℤ)
    (norads : List Nat)
    (hfetch : (satellites_to_fetch sats now days).isEmpty = false)
    (hnorads : norads.isEmpty = false) :
    sync_constellation_history true true sats now days
      = Except.error PyError.attributeError ∧
    (∀ n : Nat, sync_constellation_history true true sats now days ≠ Except.ok n) ∧
    update_satcat_data true norads = Except.error PyError.attributeError := by
  have hsats : sats.isEmpty = false := by
    cases sats with
    | nil => simp [satellites_to_fetch] at hfetch
    | cons a l => rfl
  have h1 : sync_constellation_history true true sats now days
      = Except.error PyError.attributeError := by
    rw [sync_constellation_history]
    simp only [hsats, hfetch]
    rfl
  refine ⟨h1, ?_, ?_⟩
  · intro n hn
    rw [h1] at hn
    exact Except.noConfusion hn
  · rw [update_satcat_data]
    simp only [hnorads]
    rfl

/-- Claim C10, witness: one satellite with no history (so it needs fetching)
and one catalog number for the metadata path. -/
theorem sync_history_missing_method_witness :
    sync_constellation_history true true [{ norad_id := 44713, earliest_epoch := none }] 0 365
      = Except.error PyError.attributeError ∧
    (∀ n : Nat, sync_constellation_history true true
        [{ norad_id := 44713, earliest_epoch := none }] 0 365 ≠ Except.ok n) ∧
    update_satcat_data true [44713] = Except.error PyError.attributeError :=
  sync_history_missing_method [{ norad_id := 44713, earliest_epoch := none }] 0 365
    [44713] (by decide) (by decide)
